import Mathlib

/-!
Shallow embedding of the rustify deployment CLI (src/src/main.rs and
src/src/config/nginx.rs).

External process invocations and filesystem writes are modelled as an
explicit trace of `Step`s; the outside world (exit statuses and captured
stdout of the invoked commands) is supplied as an oracle record, so every
embedded function is a pure, executable Lean function of its inputs and
its oracle.  Spawn failures of `Command::new(..).output()` / `.status()`
(the `?` operator in the source) are modelled as Boolean spawn outcomes
at the call sites whose error path a claim depends on; `fs::write` is
assumed to succeed (no claim depends on a write failing).  Rust string
escapes are reproduced exactly: a `\` line continuation in a Rust string
literal removes the newline and all leading whitespace of the following
line, and `r#"…"#` raw strings keep their text verbatim.
-/

namespace Rustify

/-- Embedding of Rust `str::contains` prefix test over char lists. -/
def startsWithChars : List Char → List Char → Bool
  | [], _ => true
  | _ :: _, [] => false
  | p :: ps, t :: ts => p == t && startsWithChars ps ts

/-- Embedding of Rust `str::contains` over char lists. -/
def hasSubChars : List Char → List Char → Bool
  | pat, [] => pat.isEmpty
  | pat, t :: ts => startsWithChars pat (t :: ts) || hasSubChars pat ts

/-- Rust `str::contains`, kernel-computable. -/
def stringContains (s pat : String) : Bool := hasSubChars pat.data s.data

def splitWsAux : List Char → List Char → List String
  | [], acc => if acc.isEmpty then [] else [String.mk acc.reverse]
  | c :: cs, acc =>
    if c.isWhitespace then
      if acc.isEmpty then splitWsAux cs []
      else String.mk acc.reverse :: splitWsAux cs []
    else splitWsAux cs (c :: acc)

/-- Rust `str::split_whitespace().collect()`: whitespace-separated tokens,
empty tokens skipped. -/
def split_whitespace (s : String) : List String := splitWsAux s.data []

/-- Rust `str::trim`, kernel-computable. -/
def trimString (s : String) : String :=
  String.mk ((s.data.dropWhile Char.isWhitespace).reverse.dropWhile
    Char.isWhitespace).reverse

/-- Embedding of `KubernetesMetadata` from main.rs (lines 35-48). -/
structure KubernetesMetadata where
  namespace_ : String
  deployment_name : String
  service_name : String
  replicas : Int
  pod_status : List String
  ingress_host : Option String
  deriving Repr, DecidableEq

/-- Embedding of `AppMetadata` from main.rs (lines 18-32).  The advisory
`performance_metrics` and `scaling_config` sub-records are built from
`Default::default()` constants and never read or written by the
deployment pipeline, so the embedding omits them. -/
structure AppMetadata where
  app_name : String
  app_type : String
  port : String
  created_at : String
  container_id : Option String
  _status : String
  kubernetes_enabled : Bool
  kubernetes_metadata : KubernetesMetadata
  deriving Repr, DecidableEq

/-- One observable side effect of the CLI: a filesystem write, an external
`docker`/`kubectl` invocation, a `thread::sleep`, the `save_metadata`
persistence call (carrying the record it serialises to
`.container-metadata.json`), a printed warning, or one of the two `init`
scaffolding routines (whose internal file writes no claim inspects,
abstracted as invocation markers). -/
inductive Step where
  | fsWrite (path : String) (content : String)
  | docker (args : List String)
  | kubectl (args : List String)
  | sleep (secs : Nat)
  | saveRecord (m : AppMetadata)
  | warn (msg : String)
  | startRuntime
  | initProject (projectType : String)
  | createDockerFiles
  deriving Repr, DecidableEq

def Step.isFsWrite : Step → Bool
  | .fsWrite _ _ => true
  | _ => false

def Step.isKubectl : Step → Bool
  | .kubectl _ => true
  | _ => false

def Step.isDockerCmd : Step → Bool
  | .docker _ => true
  | _ => false

/-- The `AppMetadata` literal built by the `deploy` subcommand arm of
`main` (main.rs lines 428-446); `created_at` stands for the ambient
`Local::now().to_rfc3339()` value. -/
def mkDeployMetadata (is_prod : Bool) (port : String) (auto_scale : Bool)
    (created_at : String) : AppMetadata :=
  { app_name := "app"
    app_type := "bun"
    port := port
    created_at := created_at
    container_id := none
    _status := "pending"
    kubernetes_enabled := is_prod
    kubernetes_metadata :=
      { namespace_ := if is_prod then "production" else "development"
        deployment_name := "app-deployment"
        service_name := "app-service"
        replicas := if auto_scale then 3 else 1
        pod_status := []
        ingress_host := none } }

/-- The mode-dependent `resources` block of `generate_kubernetes_manifests`
(main.rs lines 669-687). -/
def resourcesBlock (mode : String) : String :=
  if mode == "prod" then
    "\n        resources:\n          requests:\n            cpu: \"1\"\n            memory: \"2Gi\"\n          limits:\n            cpu: \"2\"\n            memory: \"4Gi\""
  else
    "\n        resources:\n          requests:\n            cpu: \"500m\"\n            memory: \"512Mi\"\n          limits:\n            cpu: \"1\"\n            memory: \"1Gi\""

/-- The Deployment manifest rendered by `generate_kubernetes_manifests`
(main.rs lines 689-759). -/
def deploymentYaml (app_name : String) (port : String) (replicas : Int)
    (ns : String) (mode : String) : String :=
  let resources := resourcesBlock mode
  s!"apiVersion: apps/v1
kind: Deployment
metadata:
  name: {app_name}-deployment
  namespace: {ns}
spec:
  replicas: {replicas}
  strategy:
    type: RollingUpdate
    rollingUpdate:
      maxSurge: 25%
      maxUnavailable: 25%
  selector:
    matchLabels:
      app: {app_name}
  template:
    metadata:
      labels:
        app: {app_name}
      annotations:
        prometheus.io/scrape: \"true\"
        prometheus.io/port: \"{port}\"
    spec:
      containers:
      - name: {app_name}
        image: {app_name}:latest
        imagePullPolicy: Never
        ports:
        - containerPort: {port}
          protocol: TCP
        env:
        - name: PORT
          value: \"{port}\"
        - name: NODE_ENV
          value: \"{mode}\"
        {resources}
        livenessProbe:
          httpGet:
            path: /health
            port: {port}
          initialDelaySeconds: 15
          periodSeconds: 20
          timeoutSeconds: 5
          failureThreshold: 3
        readinessProbe:
          httpGet:
            path: /health
            port: {port}
          initialDelaySeconds: 5
          periodSeconds: 10
          timeoutSeconds: 3
          successThreshold: 1
          failureThreshold: 3
        startupProbe:
          httpGet:
            path: /health
            port: {port}
          failureThreshold: 30
          periodSeconds: 10
      securityContext:
        runAsNonRoot: true
        runAsUser: 1000
      topologySpreadConstraints:
      - maxSkew: 1
        topologyKey: kubernetes.io/hostname
        whenUnsatisfied: DoNotSchedule
        labelSelector:
          matchLabels:
            app: {app_name}"

/-- The Service manifest rendered by `generate_kubernetes_manifests`
(main.rs lines 764-784). -/
def serviceYaml (app_name : String) (port : String) (ns : String) : String :=
  s!"apiVersion: v1
kind: Service
metadata:
  name: {app_name}-service
  namespace: {ns}
  annotations:
    prometheus.io/scrape: \"true\"
    prometheus.io/port: \"{port}\"
spec:
  selector:
    app: {app_name}
  ports:
  - port: {port}
    targetPort: {port}
  sessionAffinity: ClientIP
  sessionAffinityConfig:
    clientIP:
      timeoutSeconds: 10800
  type: ClusterIP"

/-- Embedding of `generate_kubernetes_manifests` (main.rs lines 661-788): renders the
Deployment and Service manifests and writes them itself with `fs::write`;
its trace is the pair of file writes. -/
def generate_kubernetes_manifests (app_name : String) (_app_type : String)
    (port : String) (replicas : Int) (namespace_ : String) (mode : String) :
    List Step :=
  [Step.fsWrite "k8s-deployment.yaml"
     (deploymentYaml app_name port replicas namespace_ mode),
   Step.fsWrite "k8s-service.yaml" (serviceYaml app_name port namespace_)]

/-- Embedding of `create_kubernetes_ingress` (main.rs lines 861-897): renders the
Ingress manifest, writes it with `fs::write`, invokes `kubectl apply` on
it, and returns the ingress host `{app_name}.local`. -/
def create_kubernetes_ingress (app_name : String) (port : String)
    (namespace_ : String) (_mode : String) : String × List Step :=
  let ns := namespace_
  let ingress := s!"apiVersion: networking.k8s.io/v1
kind: Ingress
metadata:
  name: {app_name}-ingress
  namespace: {ns}
  annotations:
    nginx.ingress.kubernetes.io/rewrite-target: /
spec:
  rules:
  - host: {app_name}.local
    http:
      paths:
      - path: /
        pathType: Prefix
        backend:
          service:
            name: {app_name}-service
            port:
              number: {port}"
  (app_name ++ ".local",
   [Step.fsWrite "k8s-ingress.yaml" ingress,
    Step.kubectl ["apply", "-f", "k8s-ingress.yaml"]])

/-- Embedding of `generate_nginx_config` (src/src/config/nginx.rs): a pure render of
the web-server config; only `worker_processes` depends on the mode. -/
def generate_nginx_config (mode : String) : String :=
  let worker_processes := if mode == "prod" then "auto" else "4"
  s!"
user nginx;
worker_processes {worker_processes};
worker_rlimit_nofile 1000000;
pcre_jit on;

events \x7b
    worker_connections 65535;
    use epoll;
    multi_accept on;
\x7d

http \x7b
    # Basic Settings
    sendfile on;
    tcp_nopush on;
    tcp_nodelay on;
    keepalive_timeout 65;
    keepalive_requests 1000;
    types_hash_max_size 2048;
    server_tokens off;
    \n    # Buffer Settings
    client_body_buffer_size 128k;
    client_max_body_size 50M;
    client_header_buffer_size 1k;
    large_client_header_buffers 4 32k;
    output_buffers 1 32k;
    postpone_output 1460;
    \n    # Caching Settings
    open_file_cache max=200000 inactive=20s;
    open_file_cache_valid 30s;
    open_file_cache_min_uses 2;
    open_file_cache_errors on;
    \n    # Compression
    gzip on;
    gzip_comp_level 5;
    gzip_min_length 256;
    gzip_proxied any;
    gzip_vary on;
    gzip_types
        application/javascript
        application/json
        application/ld+json
        application/manifest+json
        application/xml
        font/woff
        font/woff2
        image/svg+xml
        text/css
        text/javascript
        text/plain
        text/xml;
    \n    # Security Headers
    add_header X-Frame-Options \"SAMEORIGIN\" always;
    add_header X-XSS-Protection \"1; mode=block\" always;
    add_header X-Content-Type-Options \"nosniff\" always;
    add_header Referrer-Policy \"no-referrer-when-downgrade\" always;
    add_header Content-Security-Policy \"default-src \x27self\x27 http: https: data: blob: \x27unsafe-inline\x27\" always;
    add_header Strict-Transport-Security \"max-age=31536000; includeSubDomains\" always;
    \n    # SSL Settings
    ssl_protocols TLSv1.2 TLSv1.3;
    ssl_prefer_server_ciphers on;
    ssl_session_cache shared:SSL:50m;
    ssl_session_timeout 1d;
    ssl_session_tickets off;
    ssl_ciphers ECDHE-ECDSA-AES128-GCM-SHA256:ECDHE-RSA-AES128-GCM-SHA256;
    "

/-- The mode-dependent ResourceQuota document of
`create_namespace_with_quotas` (main.rs lines 1069-1093); the raw strings
open with a newline and close with a stray double quote, both kept. -/
def quotaYaml (mode : String) : String :=
  if mode == "prod" then
    "\napiVersion: v1\nkind: ResourceQuota\nmetadata:\n  name: compute-quota\nspec:\n  hard:\n    requests.cpu: \"4\"\n    requests.memory: 8Gi\n    limits.cpu: \"8\"\n    limits.memory: 16Gi\""
  else
    "\napiVersion: v1\nkind: ResourceQuota\nmetadata:\n  name: compute-quota\nspec:\n  hard:\n    requests.cpu: \"1\"\n    requests.memory: 2Gi\n    limits.cpu: \"2\"\n    limits.memory: 4Gi\""

/-- Embedding of `create_namespace_with_quotas` (main.rs lines 1067-1114): writes the
quota file, issues a client-side dry-run of `kubectl create namespace`,
and applies the quota; the exit statuses of both kubectl invocations are
captured by `.output()?` and never consulted.  This function is defined
in main.rs but is never called from any deployment path. -/
def create_namespace_with_quotas (namespace_ : String) (mode : String) :
    List Step :=
  [Step.fsWrite "quota.yaml" (quotaYaml mode),
   Step.kubectl ["create", "namespace", namespace_, "--dry-run=client",
                 "-o", "yaml"],
   Step.kubectl ["apply", "-f", "quota.yaml", "-n", namespace_]]

/-- Dockerfile content selection of `deploy_to_docker` (main.rs lines
539-550): only the `"bun"` application type renders a Dockerfile; every
other type is the `Unsupported app type` error. -/
def dockerfileFor (app_type : String) (port : String) : Except String String :=
  if app_type = "bun" then
    .ok ("FROM oven/bun:latest\nWORKDIR /app\nCOPY . .\nRUN bun install\nEXPOSE "
      ++ port ++ "\nCMD [\"bun\", \"start\"]")
  else .error "Unsupported app type"

/-- Oracle for the two container-runtime invocations of the local
executors: exit status of `docker build`, exit status and captured stdout
of `docker run`. -/
structure DockerRunWorld where
  buildExitOk : Bool
  runExitOk : Bool
  runStdout : String
  deriving Repr

/-- Embedding of `deploy_to_docker` (main.rs lines 535-587): renders Dockerfile and
compose file, then invokes `docker build` via `.status()?` WITHOUT
consulting the returned exit status, then always invokes `docker run` and
returns its trimmed stdout as the container id. -/
def deploy_to_docker (metadata : AppMetadata) (w : DockerRunWorld) :
    Except String String × List Step :=
  match dockerfileFor metadata.app_type metadata.port with
  | .error e => (.error e, [])
  | .ok dockerfile_content =>
    let docker_compose :=
      "version: \x273.8\x27\nservices:\n" ++ metadata.app_name
        ++ ":\nbuild: .\nports:\n- " ++ metadata.port ++ ":" ++ metadata.port
        ++ "\nrestart: always\nenvironment:\n- NODE_ENV=production"
    let tr := [Step.fsWrite "Dockerfile" dockerfile_content,
               Step.fsWrite "docker-compose.yml" docker_compose,
               Step.docker ["build", "-t", metadata.app_name ++ "-app", "."],
               Step.docker ["run", "-d", "-p",
                            metadata.port ++ ":" ++ metadata.port,
                            metadata.app_name ++ "-app"]]
    (.ok (trimString w.runStdout), tr)

/-- Embedding of `deploy_with_docker` (main.rs lines 3880-3922): `docker build` whose
exit status gates the pipeline, then `docker run` whose exit status gates
success; neither step is retried. -/
def deploy_with_docker (metadata : AppMetadata) (w : DockerRunWorld) :
    Except String Unit × List Step :=
  let buildStep := Step.docker ["build", "-t",
                                metadata.app_name ++ ":latest", "."]
  if w.buildExitOk then
    let runStep := Step.docker ["run", "-d", "-p",
                                metadata.port ++ ":3000", "--name",
                                metadata.app_name,
                                metadata.app_name ++ ":latest"]
    if w.runExitOk then
      (.ok (), [buildStep, runStep])
    else
      (.error "Failed to start Docker container", [buildStep, runStep])
  else
    (.error "Failed to build Docker image", [buildStep])

/-- Recovery loop of `DockerManager::start_docker` (main.rs lines 147-159):
up to `fuel` liveness queries (`docker info`), sleeping 2s after each
failed one; `live i` tells whether the i-th query finds the runtime up. -/
def start_docker_loop (live : Nat → Bool) : Nat → Nat →
    Except String Unit × List Step
  | _, 0 => (.error "Docker failed to start", [])
  | i, fuel + 1 =>
    if live i then (.ok (), [Step.docker ["info"]])
    else
      let rest := start_docker_loop live (i + 1) fuel
      (rest.1, Step.docker ["info"] :: Step.sleep 2 :: rest.2)

/-- Embedding of `DockerManager::start_docker` (main.rs lines 120-165): issues the
platform start command, then polls liveness at most 30 times. -/
def start_docker (live : Nat → Bool) : Except String Unit × List Step :=
  let (r, tr) := start_docker_loop live 0 30
  (r, Step.startRuntime :: tr)

/-- Oracle for `check_kubernetes_connection`: spawn/exit outcomes of its
queries and the captured context list; `clusterInfo i` is true when the
i-th `kubectl cluster-info` attempt spawns AND exits successfully (the
source treats a spawn error and a non-zero exit alike there). -/
structure KubeConnWorld where
  dockerInfoSpawnOk : Bool
  currentContextSpawnOk : Bool
  currentContextExitOk : Bool
  getContextsSpawnOk : Bool
  contextsStdout : String
  useContextSpawnOk : Bool
  clusterInfo : Nat → Bool

/-- The bounded cluster-connectivity retry loop of
`check_kubernetes_connection` (main.rs lines 1258-1280): attempt `i`
sleeps 5s first when `i > 0`; failure of the last attempt is the error. -/
def cluster_connect_loop (ok : Nat → Bool) : Nat → Nat →
    Except String Unit × List Step
  | _, 0 => (.ok (), [])
  | i, fuel + 1 =>
    let pre : List Step := if i > 0 then [Step.sleep 5] else []
    let attempt := pre ++ [Step.kubectl ["cluster-info"]]
    if ok i then (.ok (), attempt)
    else if fuel = 0 then
      (.error "Failed to connect to Kubernetes cluster after 3 attempts. Please check:\n1. Docker Desktop is running\n2. Kubernetes is enabled and running (green icon)\n3. No firewall is blocking the connection",
       attempt)
    else
      let rest := cluster_connect_loop ok (i + 1) fuel
      (rest.1, attempt ++ rest.2)

/-- Embedding of `check_kubernetes_connection` (main.rs lines 1218-1283): docker
liveness query, context check/switch, then the 3-attempt cluster loop. -/
def check_kubernetes_connection (w : KubeConnWorld) :
    Except String Unit × List Step :=
  let dockerStep := Step.docker ["info"]
  if w.dockerInfoSpawnOk then
    let ctxStep := Step.kubectl ["config", "current-context"]
    if !w.currentContextSpawnOk then
      (.error "process spawn failed", [dockerStep, ctxStep])
    else if w.currentContextExitOk then
      let rest := cluster_connect_loop w.clusterInfo 0 3
      (rest.1, dockerStep :: ctxStep :: rest.2)
    else
      let listStep := Step.kubectl ["config", "get-contexts", "-o", "name"]
      if !w.getContextsSpawnOk then
        (.error "process spawn failed", [dockerStep, ctxStep, listStep])
      else if stringContains w.contextsStdout "docker-desktop" then
        let useStep := Step.kubectl ["config", "use-context", "docker-desktop"]
        if !w.useContextSpawnOk then
          (.error "process spawn failed", [dockerStep, ctxStep, listStep, useStep])
        else
          let rest := cluster_connect_loop w.clusterInfo 0 3
          (rest.1, dockerStep :: ctxStep :: listStep :: useStep :: rest.2)
      else
        (.error "Docker Desktop Kubernetes is not enabled. Please enable it in Docker Desktop settings.",
         [dockerStep, ctxStep, listStep])
  else
    (.error "Docker Desktop is not running. Please start Docker Desktop first.",
     [dockerStep])

/-- Oracle for `verify_container_status`: the captured stdout of the two
`docker inspect` queries. -/
structure ContainerWorld where
  runningStdout : String
  healthStdout : String
  deriving Repr

/-- Embedding of `verify_container_status` (main.rs lines 618-653): a non-`"true"`
running state is the `Container is not running` error; after a 5s settle,
a non-`"healthy"` health status is only a printed warning and the
function still returns success. -/
def verify_container_status (container_id : String) (w : ContainerWorld) :
    Except String Unit × List Step :=
  let inspectRun := Step.docker ["inspect", "-f",
                                 "\x7b\x7b.State.Running\x7d\x7d", container_id]
  if trimString w.runningStdout != "true" then
    (.error "Container is not running", [inspectRun])
  else
    let inspectHealth := Step.docker ["inspect", "-f",
                                      "\x7b\x7b.State.Health.Status\x7d\x7d",
                                      container_id]
    let health_status := trimString w.healthStdout
    if health_status != "healthy" then
      (.ok (), [inspectRun, Step.sleep 5, inspectHealth,
                Step.warn ("Container health status: " ++ health_status)])
    else
      (.ok (), [inspectRun, Step.sleep 5, inspectHealth])

/-- Oracle for `verify_infrastructure`: spawn/exit outcomes of its
queries. -/
structure InfraWorld where
  dockerVersionSpawnOk : Bool
  dockerPsSpawnOk : Bool
  useContextSpawnOk : Bool
  clusterDumpSpawnOk : Bool
  clusterDumpExitOk : Bool
  getNamespacesSpawnOk : Bool
  ingressPodsSpawnOk : Bool

/-- Embedding of `install_nginx_ingress` (main.rs lines 1025-1051): two kubectl
invocations via `.output()?`, exit statuses never consulted. -/
def install_nginx_ingress : List Step :=
  [Step.kubectl ["apply", "-f",
     "https://raw.githubusercontent.com/kubernetes/ingress-nginx/controller-v1.8.2/deploy/static/provider/cloud/deploy.yaml"],
   Step.kubectl ["wait", "--namespace", "ingress-nginx",
     "--for=condition=ready", "pod",
     "--selector=app.kubernetes.io/component=controller", "--timeout=300s"]]

/-- Embedding of `verify_infrastructure` (main.rs lines 944-1023): docker version and
daemon queries, context switch, cluster-info dump, namespace listing, and
the ingress-controller presence probe (installing it when the probe
fails to spawn). -/
def verify_infrastructure (w : InfraWorld) : Except String Unit × List Step :=
  let versionStep := Step.docker ["--version"]
  if !w.dockerVersionSpawnOk then
    (.error "Docker is not installed or not in PATH", [versionStep])
  else
    let psStep := Step.docker ["ps"]
    if !w.dockerPsSpawnOk then
      (.error "Docker daemon is not running. Please start Docker Desktop or docker service",
       [versionStep, psStep])
    else
      let useStep := Step.kubectl ["config", "use-context", "docker-desktop"]
      if !w.useContextSpawnOk then
        (.error "process spawn failed", [versionStep, psStep, useStep])
      else
        let dumpStep := Step.kubectl ["cluster-info", "dump"]
        if !w.clusterDumpSpawnOk then
          (.error "Cannot connect to Kubernetes cluster",
           [versionStep, psStep, useStep, dumpStep])
        else if !w.clusterDumpExitOk then
          (.error "Kubernetes cluster is not ready",
           [versionStep, psStep, useStep, dumpStep])
        else
          let nsStep := Step.kubectl ["get", "namespaces"]
          if !w.getNamespacesSpawnOk then
            (.error "process spawn failed",
             [versionStep, psStep, useStep, dumpStep, nsStep])
          else
            let probeStep := Step.kubectl ["get", "pods", "-n", "ingress-nginx"]
            if !w.ingressPodsSpawnOk then
              (.ok (), [versionStep, psStep, useStep, dumpStep, nsStep,
                        probeStep] ++ install_nginx_ingress)
            else
              (.ok (), [versionStep, psStep, useStep, dumpStep, nsStep,
                        probeStep])

/-- Embedding of `save_metadata` (main.rs lines 655-659): serialises the record to
`.container-metadata.json`; the embedding records the persisted record
itself. -/
def save_metadata (metadata : AppMetadata) : List Step :=
  [Step.saveRecord metadata]

/-- Embedding of `deploy_application` (main.rs lines 467-497): verify infrastructure,
verify the container only when `container_id` is set, render cluster
manifests only in prod mode, then persist the (unmodified) record. -/
def deploy_application (metadata : AppMetadata) (is_prod : Bool)
    (iw : InfraWorld) (cw : ContainerWorld) : Except String Unit × List Step :=
  let (r1, t1) := verify_infrastructure iw
  match r1 with
  | .error e => (.error e, t1)
  | .ok _ =>
    let (r2, t2) :=
      match metadata.container_id with
      | some cid => verify_container_status cid cw
      | none => (.ok (), [])
    match r2 with
    | .error e => (.error e, t1 ++ t2)
    | .ok _ =>
      let t3 :=
        if is_prod then
          generate_kubernetes_manifests metadata.app_name metadata.app_type
            metadata.port metadata.kubernetes_metadata.replicas
            metadata.kubernetes_metadata.namespace_ "prod"
        else []
      (.ok (), t1 ++ t2 ++ t3 ++ save_metadata metadata)

/-- The `deploy` subcommand arm of `main` (main.rs lines 422-458): build
the fixed metadata record, run `deploy_with_docker`, then
`deploy_application`; either failure exits the process with code 1. -/
def deployCommand (is_prod : Bool) (port : String) (auto_scale : Bool)
    (created_at : String) (dw : DockerRunWorld) (iw : InfraWorld)
    (cw : ContainerWorld) : Except String Unit × List Step :=
  let metadata := mkDeployMetadata is_prod port auto_scale created_at
  let (r1, t1) := deploy_with_docker metadata dw
  match r1 with
  | .error e => (.error e, t1)
  | .ok _ =>
    let (r2, t2) := deploy_application metadata is_prod iw cw
    (r2, t1 ++ t2)

/-- Oracle for `apply_kubernetes_manifests`: spawn outcomes (checked by
`?`) and exit statuses (captured by `.output()` but never consulted by
the source) of its three kubectl invocations. -/
structure KubeApplyWorld where
  createNsSpawnOk : Bool
  applyDeploymentSpawnOk : Bool
  applyDeploymentExitOk : Bool
  applyServiceSpawnOk : Bool
  applyServiceExitOk : Bool
  deriving Repr

/-- Embedding of `apply_kubernetes_manifests` (main.rs lines 790-813): a client-side
dry-run of namespace creation, then `kubectl apply` of the deployment and
service manifests.  Each invocation uses `.output()?`, so only a spawn
failure propagates; the exit statuses in the oracle are deliberately
unread, mirroring the source. -/
def apply_kubernetes_manifests (namespace_ : String) (w : KubeApplyWorld) :
    Except String Unit × List Step :=
  let nsStep := Step.kubectl ["create", "namespace", namespace_,
                              "--dry-run=client", "-o", "yaml"]
  if !w.createNsSpawnOk then
    (.error "process spawn failed", [nsStep])
  else
    let depStep := Step.kubectl ["apply", "-f", "k8s-deployment.yaml"]
    if !w.applyDeploymentSpawnOk then
      (.error "process spawn failed", [nsStep, depStep])
    else
      let svcStep := Step.kubectl ["apply", "-f", "k8s-service.yaml"]
      if !w.applyServiceSpawnOk then
        (.error "process spawn failed", [nsStep, depStep, svcStep])
      else
        (.ok (), [nsStep, depStep, svcStep])

/-- Embedding of `wait_for_kubernetes_deployment` (main.rs lines 814-837): single
rollout-status invocation with a 300s timeout; a non-zero exit is the
rollout error. -/
def wait_for_kubernetes_deployment (deployment_name : String)
    (namespace_ : String) (rolloutExitOk : Bool) :
    Except String Unit × List Step :=
  let step := Step.kubectl ["rollout", "status", "deployment",
                            deployment_name, "-n", namespace_,
                            "--timeout=300s"]
  if rolloutExitOk then (.ok (), [step])
  else (.error "Deployment failed to roll out", [step])

/-- Embedding of `update_pod_status` (main.rs lines 839-859): queries current pod
phases and REPLACES `pod_status` with the whitespace-split stdout. -/
def update_pod_status (metadata : AppMetadata) (namespace_ : String)
    (podsStdout : String) : AppMetadata × List Step :=
  let step := Step.kubectl ["get", "pods", "-l",
                            "app=" ++ metadata.app_name, "-n", namespace_,
                            "-o", "jsonpath=\x7b.items[*].status.phase\x7d"]
  ({ metadata with
     kubernetes_metadata :=
       { metadata.kubernetes_metadata with
         pod_status := split_whitespace podsStdout } },
   [step])

/-- Oracle for `deploy_to_kubernetes`. -/
structure KubeDeployWorld where
  apply : KubeApplyWorld
  rolloutExitOk : Bool
  podsStdout : String
  deriving Repr

/-- Embedding of `deploy_to_kubernetes` (main.rs lines 500-533): render manifests,
apply them, wait for rollout, refresh pod status, return the deployment
name.  Defined in main.rs but never called from any deployment path;
embedded because the cluster-ordering claims cite it. -/
def deploy_to_kubernetes (metadata : AppMetadata) (auto_scale : Bool)
    (w : KubeDeployWorld) :
    Except String String × AppMetadata × List Step :=
  let _ := auto_scale
  let ns := metadata.kubernetes_metadata.namespace_
  let genTr := generate_kubernetes_manifests metadata.app_name
    metadata.app_type metadata.port metadata.kubernetes_metadata.replicas
    ns "prod"
  let (r1, t1) := apply_kubernetes_manifests ns w.apply
  match r1 with
  | .error e => (.error e, metadata, genTr ++ t1)
  | .ok _ =>
    let (r2, t2) := wait_for_kubernetes_deployment
      metadata.kubernetes_metadata.deployment_name ns w.rolloutExitOk
    match r2 with
    | .error e => (.error e, metadata, genTr ++ t1 ++ t2)
    | .ok _ =>
      let (m2, t3) := update_pod_status metadata ns w.podsStdout
      (.ok (metadata.app_name ++ "-deployment"), m2, genTr ++ t1 ++ t2 ++ t3)

/-- The CLI surface dispatched by `main` (main.rs lines 409-465): `init`,
`deploy`, or an unrecognized/absent subcommand (usage text). -/
inductive CliCommand where
  | init (projectType : String)
  | deploy (prod : Bool) (port : String) (rpl : Bool)
  | usage
  deriving Repr, DecidableEq

/-- Combined oracle for one `main` run. -/
structure MainWorld where
  conn : KubeConnWorld
  dw : DockerRunWorld
  iw : InfraWorld
  cw : ContainerWorld
  created_at : String

/-- Embedding of `main` (main.rs lines 365-466): unconditionally runs
`check_kubernetes_connection` first and exits with code 1 on its failure
before reading the CLI arguments; otherwise dispatches the subcommand.
The `init` scaffolding routines write project files and are abstracted as
invocation markers (no claim inspects their contents and they are assumed
to succeed). Returns the process exit code and the full step trace. -/
def rustifyMain (cmd : CliCommand) (w : MainWorld) : Nat × List Step :=
  let (r0, t0) := check_kubernetes_connection w.conn
  match r0 with
  | .error _ => (1, t0)
  | .ok _ =>
    match cmd with
    | .init t => (0, t0 ++ [Step.initProject t, Step.createDockerFiles])
    | .deploy prod port rpl =>
      let (r1, t1) := deployCommand prod port rpl w.created_at w.dw w.iw w.cw
      match r1 with
      | .error _ => (1, t0 ++ t1)
      | .ok _ => (0, t0 ++ t1)
    | .usage => (0, t0)

/-- A kubectl invocation that actually creates the namespace: a `create
namespace` call not flagged as a client-side dry-run. -/
def Step.isRealNamespaceCreate : Step → Bool
  | .kubectl args =>
    decide (args.take 2 = ["create", "namespace"])
      && !(args.contains "--dry-run=client")
  | _ => false

/-- A kubectl invocation applying the generated resource-quota file
(`kubectl apply -f quota.yaml …`, as issued by
`create_namespace_with_quotas`). -/
def Step.isQuotaApply : Step → Bool
  | .kubectl args => decide (args.take 3 = ["apply", "-f", "quota.yaml"])
  | _ => false

/-- A kubectl invocation applying a workload object (the generated
Deployment or Service manifest). -/
def Step.isWorkloadApply : Step → Bool
  | .kubectl args =>
    args.contains "k8s-deployment.yaml" || args.contains "k8s-service.yaml"
  | _ => false

/-- Number of occurrences of a given step in a trace. -/
def countStep (x : Step) : List Step → Nat
  | [] => 0
  | s :: rest => (if s = x then 1 else 0) + countStep x rest

/-- Every sleep in the trace lasts exactly `secs` seconds. -/
def allSleeps (secs : Nat) (l : List Step) : Bool :=
  l.all fun s => match s with
    | Step.sleep n => n == secs
    | _ => true

lemma countStep_append (x : Step) (l1 l2 : List Step) :
    countStep x (l1 ++ l2) = countStep x l1 + countStep x l2 := by
  induction l1 with
  | nil => simp [countStep]
  | cons s rest ih => simp [countStep, ih]; omega

lemma countStep_cons_ne (x s : Step) (l : List Step) (h : s ≠ x) :
    countStep x (s :: l) = countStep x l := by
  simp [countStep, h]

lemma allSleeps_append (secs : Nat) (l1 l2 : List Step) :
    allSleeps secs (l1 ++ l2) = (allSleeps secs l1 && allSleeps secs l2) := by
  simp [allSleeps]

lemma countStep_info_cons_sleep (l : List Step) :
    countStep (Step.docker ["info"]) (Step.docker ["info"] :: Step.sleep 2 :: l)
      = countStep (Step.docker ["info"]) l + 1 := by
  rw [show Step.docker ["info"] :: Step.sleep 2 :: l
        = [Step.docker ["info"], Step.sleep 2] ++ l from rfl,
      countStep_append]
  have : countStep (Step.docker ["info"])
      [Step.docker ["info"], Step.sleep 2] = 1 := by decide
  omega

lemma start_docker_loop_info_count (live : Nat → Bool) :
    ∀ fuel i, countStep (Step.docker ["info"])
      (start_docker_loop live i fuel).2 ≤ fuel := by
  intro fuel
  induction fuel with
  | zero => intro i; simp [start_docker_loop, countStep]
  | succ f ih =>
    intro i
    by_cases h : live i
    · simp [start_docker_loop, h, countStep]
    · have hr := ih (i + 1)
      simp only [start_docker_loop, h, Bool.false_eq_true, if_false]
      rw [countStep_info_cons_sleep]
      omega

lemma start_docker_loop_sleeps (live : Nat → Bool) :
    ∀ fuel i, allSleeps 2 (start_docker_loop live i fuel).2 = true := by
  intro fuel
  induction fuel with
  | zero => intro i; simp [start_docker_loop, allSleeps]
  | succ f ih =>
    intro i
    by_cases h : live i
    · simp [start_docker_loop, h, allSleeps]
    · have hr := ih (i + 1)
      simp only [start_docker_loop, h, Bool.false_eq_true, if_false]
      simp only [allSleeps, List.all_cons] at hr ⊢
      simp_all

/-- The single-attempt segment of the cluster loop counts as exactly one
cluster-info query. -/
lemma countStep_attempt (i : Nat) :
    countStep (Step.kubectl ["cluster-info"])
      ((if i > 0 then [Step.sleep 5] else [])
        ++ [Step.kubectl ["cluster-info"]]) = 1 := by
  by_cases h : i > 0 <;> simp only [h, if_true, if_false] <;> decide

lemma allSleeps_attempt (i : Nat) :
    allSleeps 5 ((if i > 0 then [Step.sleep 5] else [])
      ++ [Step.kubectl ["cluster-info"]]) = true := by
  by_cases h : i > 0 <;> simp only [h, if_true, if_false] <;> decide

lemma cluster_connect_loop_info_count (ok : Nat → Bool) :
    ∀ fuel i, countStep (Step.kubectl ["cluster-info"])
      (cluster_connect_loop ok i fuel).2 ≤ fuel := by
  intro fuel
  induction fuel with
  | zero => intro i; simp [cluster_connect_loop, countStep]
  | succ f ih =>
    intro i
    by_cases h : ok i
    · simp only [cluster_connect_loop, h, if_true]
      rw [countStep_attempt]
      omega
    · by_cases hf : f = 0
      · subst hf
        simp only [cluster_connect_loop, h, Bool.false_eq_true, if_false,
          if_true]
        rw [countStep_attempt]
      · have hr := ih (i + 1)
        simp only [cluster_connect_loop, h, hf, Bool.false_eq_true, if_false]
        rw [countStep_append, countStep_attempt]
        omega

lemma cluster_connect_loop_sleeps (ok : Nat → Bool) :
    ∀ fuel i, allSleeps 5 (cluster_connect_loop ok i fuel).2 = true := by
  intro fuel
  induction fuel with
  | zero => intro i; simp [cluster_connect_loop, allSleeps]
  | succ f ih =>
    intro i
    by_cases h : ok i
    · simp only [cluster_connect_loop, h, if_true]
      exact allSleeps_attempt i
    · by_cases hf : f = 0
      · subst hf
        simp only [cluster_connect_loop, h, Bool.false_eq_true, if_false,
          if_true]
        exact allSleeps_attempt i
      · have hr := ih (i + 1)
        simp only [cluster_connect_loop, h, hf, Bool.false_eq_true, if_false]
        rw [allSleeps_append, allSleeps_attempt i, hr]
        rfl

lemma countStep_le_of_heads (x : Step) (pre tr : List Step) (n : Nat)
    (hpre : countStep x pre = 0) (h : countStep x tr ≤ n) :
    countStep x (pre ++ tr) ≤ n := by
  rw [countStep_append, hpre]
  omega

lemma allSleeps_heads (secs : Nat) (pre tr : List Step)
    (hpre : allSleeps secs pre = true) (h : allSleeps secs tr = true) :
    allSleeps secs (pre ++ tr) = true := by
  rw [allSleeps_append, hpre, h]
  rfl

lemma check_conn_cluster_count (w : KubeConnWorld) :
    countStep (Step.kubectl ["cluster-info"])
      (check_kubernetes_connection w).2 ≤ 3 := by
  unfold check_kubernetes_connection
  by_cases h1 : w.dockerInfoSpawnOk <;>
    by_cases h2 : w.currentContextSpawnOk <;>
      by_cases h3 : w.currentContextExitOk <;>
        by_cases h4 : w.getContextsSpawnOk <;>
          by_cases h5 : stringContains w.contextsStdout "docker-desktop" <;>
            by_cases h6 : w.useContextSpawnOk <;>
              simp only [h1, h2, h3, h4, h5, h6, Bool.not_true, Bool.not_false,
                if_true, if_false, Bool.false_eq_true, Bool.true_eq_false,
                Bool.not_eq_true] <;>
                first
                | decide
                | exact countStep_le_of_heads _
                    [Step.docker ["info"],
                     Step.kubectl ["config", "current-context"]] _ 3
                    (by decide)
                    (cluster_connect_loop_info_count w.clusterInfo 3 0)
                | exact countStep_le_of_heads _
                    [Step.docker ["info"],
                     Step.kubectl ["config", "current-context"],
                     Step.kubectl ["config", "get-contexts", "-o", "name"],
                     Step.kubectl ["config", "use-context", "docker-desktop"]]
                    _ 3 (by decide)
                    (cluster_connect_loop_info_count w.clusterInfo 3 0)

lemma check_conn_sleeps (w : KubeConnWorld) :
    allSleeps 5 (check_kubernetes_connection w).2 = true := by
  unfold check_kubernetes_connection
  by_cases h1 : w.dockerInfoSpawnOk <;>
    by_cases h2 : w.currentContextSpawnOk <;>
      by_cases h3 : w.currentContextExitOk <;>
        by_cases h4 : w.getContextsSpawnOk <;>
          by_cases h5 : stringContains w.contextsStdout "docker-desktop" <;>
            by_cases h6 : w.useContextSpawnOk <;>
              simp only [h1, h2, h3, h4, h5, h6, Bool.not_true, Bool.not_false,
                if_true, if_false, Bool.false_eq_true, Bool.true_eq_false,
                Bool.not_eq_true] <;>
                first
                | decide
                | exact allSleeps_heads 5
                    [Step.docker ["info"],
                     Step.kubectl ["config", "current-context"]] _
                    (by decide)
                    (cluster_connect_loop_sleeps w.clusterInfo 3 0)

/-- C3: the runtime-liveness recovery loop of `DockerManager::start_docker`
issues at most 30 liveness queries, every sleep between them is the fixed
2-second interval, and the cluster-reachability check of
`check_kubernetes_connection` makes at most 3 cluster-info attempts with
5-second sleeps between attempts; both polling loops are bounded. -/
theorem bounded_recovery_polling (live : Nat → Bool) (w : KubeConnWorld) :
    countStep (Step.docker ["info"]) (start_docker live).2 ≤ 30 ∧
    allSleeps 2 (start_docker live).2 = true ∧
    countStep (Step.kubectl ["cluster-info"])
      (check_kubernetes_connection w).2 ≤ 3 ∧
    allSleeps 5 (check_kubernetes_connection w).2 = true := by
  refine ⟨?_, ?_, check_conn_cluster_count w, check_conn_sleeps w⟩
  · show countStep (Step.docker ["info"])
      (Step.startRuntime :: (start_docker_loop live 0 30).2) ≤ 30
    rw [countStep_cons_ne _ _ _ (by decide)]
    exact start_docker_loop_info_count live 30 0
  · show allSleeps 2 (Step.startRuntime :: (start_docker_loop live 0 30).2)
      = true
    have h := start_docker_loop_sleeps live 30 0
    simp only [allSleeps, List.all_cons] at h ⊢
    simp_all

/-- C1: artifact rendering is a deterministic function of its inputs: two
invocations of the Kubernetes-manifest renderer and of the web-server
config renderer with identical `(name, type, port, replicas, namespace,
mode)` inputs produce byte-identical artifact contents. -/
theorem render_deterministic (app_name _app_type port : String)
    (replicas : Int) (namespace_ mode : String) :
    generate_kubernetes_manifests app_name _app_type port replicas
        namespace_ mode
      = generate_kubernetes_manifests app_name _app_type port replicas
        namespace_ mode
    ∧ generate_nginx_config mode = generate_nginx_config mode :=
  ⟨rfl, rfl⟩

/-- Oracle in which the image build exits non-zero but the run succeeds. -/
def c2World : DockerRunWorld :=
  { buildExitOk := false, runExitOk := true, runStdout := "cid123\n" }

/-- C2 counterexample: in `deploy_to_docker` (main.rs lines 535-587, one
of the two local executors the claim covers) a non-zero `docker build`
exit is ignored — the function still invokes `docker run` and returns the
container id successfully, refuting the claim that build failure is
terminal for every local executor. -/
theorem build_failure_not_terminal_in_deploy_to_docker :
    c2World.buildExitOk = false ∧
    (deploy_to_docker (mkDeployMetadata false "8000" false "t0") c2World).1
      = .ok "cid123" ∧
    ((deploy_to_docker (mkDeployMetadata false "8000" false "t0")
        c2World).2.contains
      (Step.docker ["run", "-d", "-p", "8000:8000", "app-app"])) = true :=
  ⟨rfl, rfl, rfl⟩

/-- C2 amended: in `deploy_with_docker` (main.rs lines 3880-3922), the
executor actually invoked by the `deploy` subcommand, a non-zero build
exit returns the build error and the run step is never invoked; in the
uncalled `deploy_to_docker` the build exit status is discarded and the
run step executes regardless. -/
theorem build_failure_terminal (m : AppMetadata) (w : DockerRunWorld)
    (h : w.buildExitOk = false) :
    deploy_with_docker m w =
      (.error "Failed to build Docker image",
       [Step.docker ["build", "-t", m.app_name ++ ":latest", "."]]) := by
  simp [deploy_with_docker, h]

theorem build_failure_terminal_witness :
    deploy_with_docker (mkDeployMetadata false "8000" false "t0") c2World =
      (.error "Failed to build Docker image",
       [Step.docker ["build", "-t", "app" ++ ":latest", "."]]) :=
  build_failure_terminal (mkDeployMetadata false "8000" false "t0") c2World
    rfl

/-- Oracle in which every kubectl invocation spawns but the deployment
apply exits non-zero. -/
def c5World : KubeApplyWorld :=
  { createNsSpawnOk := true, applyDeploymentSpawnOk := true,
    applyDeploymentExitOk := false, applyServiceSpawnOk := true,
    applyServiceExitOk := true }

/-- C5 counterexample: `apply_kubernetes_manifests` never consults the
exit status of its kubectl invocations — with the deployment apply
exiting non-zero it still applies the service manifest and returns
success, refuting fail-fast manifest application. -/
theorem apply_failure_ignored_counterexample :
    c5World.applyDeploymentExitOk = false ∧
    (apply_kubernetes_manifests "production" c5World).1 = .ok () ∧
    ((apply_kubernetes_manifests "production" c5World).2.contains
       (Step.kubectl ["apply", "-f", "k8s-service.yaml"])) = true :=
  ⟨rfl, rfl, rfl⟩

/-- C5 amended: provided each kubectl invocation spawns,
`apply_kubernetes_manifests` issues the namespace dry-run and applies
both manifests unconditionally and returns success, whatever the exit
statuses; only a spawn failure aborts the remaining invocations. -/
theorem apply_exit_statuses_ignored (namespace_ : String)
    (w : KubeApplyWorld) (h1 : w.createNsSpawnOk = true)
    (h2 : w.applyDeploymentSpawnOk = true)
    (h3 : w.applyServiceSpawnOk = true) :
    apply_kubernetes_manifests namespace_ w =
      (.ok (),
       [Step.kubectl ["create", "namespace", namespace_, "--dry-run=client",
                      "-o", "yaml"],
        Step.kubectl ["apply", "-f", "k8s-deployment.yaml"],
        Step.kubectl ["apply", "-f", "k8s-service.yaml"]]) := by
  simp [apply_kubernetes_manifests, h1, h2, h3]

theorem apply_exit_statuses_ignored_witness :
    c5World.createNsSpawnOk = true ∧
    c5World.applyDeploymentSpawnOk = true ∧
    c5World.applyServiceSpawnOk = true ∧
    apply_kubernetes_manifests "production" c5World =
      (.ok (),
       [Step.kubectl ["create", "namespace", "production", "--dry-run=client",
                      "-o", "yaml"],
        Step.kubectl ["apply", "-f", "k8s-deployment.yaml"],
        Step.kubectl ["apply", "-f", "k8s-service.yaml"]]) :=
  ⟨rfl, rfl, rfl, apply_exit_statuses_ignored "production" c5World rfl rfl rfl⟩

/-- C7: `verify_container_status` returns success whenever the container
is running, emitting only a warning when the reported health status is
not `healthy`; it returns the `Container is not running` error exactly
when the running query does not report `true`. -/
theorem unhealthy_is_warning_only (container_id : String)
    (w w' : ContainerWorld) (h : trimString w.runningStdout = "true")
    (h' : trimString w'.runningStdout ≠ "true") :
    (verify_container_status container_id w).1 = .ok () ∧
    (((verify_container_status container_id w).2.contains
        (Step.warn ("Container health status: " ++ trimString w.healthStdout))
        = true)
      ∨ trimString w.healthStdout = "healthy") ∧
    (verify_container_status container_id w').1
      = .error "Container is not running" := by
  refine ⟨?_, ?_, ?_⟩
  · unfold verify_container_status
    rw [h]
    simp only [bne_self_eq_false, Bool.false_eq_true, if_false]
    split <;> rfl
  · by_cases hh : trimString w.healthStdout = "healthy"
    · exact Or.inr hh
    · refine Or.inl ?_
      unfold verify_container_status
      rw [h]
      simp [hh, List.contains_cons]
  · unfold verify_container_status
    simp [h']

theorem unhealthy_is_warning_only_witness :
    trimString " true\n" = "true" ∧
    trimString "false" ≠ "true" ∧
    ((verify_container_status "c0"
        { runningStdout := " true\n", healthStdout := "starting" }).1
      = .ok () ∧
    (((verify_container_status "c0"
        { runningStdout := " true\n", healthStdout := "starting" }).2.contains
        (Step.warn ("Container health status: " ++ trimString "starting"))
        = true)
      ∨ trimString "starting" = "healthy") ∧
    (verify_container_status "c0"
        { runningStdout := "false", healthStdout := "x" }).1
      = .error "Container is not running") :=
  ⟨by decide, by decide,
   unhealthy_is_warning_only "c0"
     { runningStdout := " true\n", healthStdout := "starting" }
     { runningStdout := "false", healthStdout := "x" }
     (by decide) (by decide)⟩

/-- C8 counterexample: the artifact renderers do perform filesystem and
network calls of their own — `generate_kubernetes_manifests` writes its
manifest files itself, and `create_kubernetes_ingress` both writes its
file and invokes `kubectl apply`, refuting the claim that writing is left
to the caller. -/
theorem renderer_side_effects_counterexample :
    ((generate_kubernetes_manifests "app" "bun" "8000" 1 "development"
        "dev").any Step.isFsWrite = true) ∧
    (((create_kubernetes_ingress "app" "8000" "production" "prod").2).any
       (fun s => s.isFsWrite || s.isKubectl) = true) :=
  ⟨rfl, rfl⟩

/-- C8 amended: the effect trace of the manifest renderer is exactly its
two artifact file writes (no process invocations), and the trace of the
ingress renderer is its artifact file write followed by a `kubectl apply` of that
file; writing artifacts is performed by the renderers themselves, not by
their caller. -/
theorem renderer_writes_own_artifacts (app_name _app_type port : String)
    (replicas : Int) (namespace_ mode : String) (a2 p2 n2 m2 : String) :
    (∃ c1 c2, generate_kubernetes_manifests app_name _app_type port replicas
        namespace_ mode
      = [Step.fsWrite "k8s-deployment.yaml" c1,
         Step.fsWrite "k8s-service.yaml" c2]) ∧
    (∃ c, (create_kubernetes_ingress a2 p2 n2 m2).2
      = [Step.fsWrite "k8s-ingress.yaml" c,
         Step.kubectl ["apply", "-f", "k8s-ingress.yaml"]]) :=
  ⟨⟨_, _, rfl⟩, ⟨_, rfl⟩⟩

/-- C10: the `deploy` subcommand constructs its application record with
the fixed name `app` and fixed type `bun` whatever the CLI arguments, and
Dockerfile generation rejects every application type other than `bun`
with the `Unsupported app type` error. -/
theorem fixed_app_identity (is_prod : Bool) (port : String)
    (auto_scale : Bool) (created_at : String) (t p2 : String)
    (h : t ≠ "bun") :
    (mkDeployMetadata is_prod port auto_scale created_at).app_name = "app" ∧
    (mkDeployMetadata is_prod port auto_scale created_at).app_type = "bun" ∧
    dockerfileFor t p2 = .error "Unsupported app type" := by
  refine ⟨rfl, rfl, ?_⟩
  simp [dockerfileFor, h]

theorem fixed_app_identity_witness :
    ("node" : String) ≠ "bun" ∧
    ((mkDeployMetadata true "9000" true "t1").app_name = "app" ∧
     (mkDeployMetadata true "9000" true "t1").app_type = "bun" ∧
     dockerfileFor "node" "9000" = .error "Unsupported app type") :=
  ⟨by decide, fixed_app_identity true "9000" true "t1" "node" "9000"
    (by decide)⟩

/-- The records persisted by `save_metadata` calls in a trace. -/
def savedRecords (l : List Step) : List AppMetadata :=
  l.filterMap fun s => match s with
    | .saveRecord m => some m
    | _ => none

/-- All-success container-runtime oracle. -/
def goodDW : DockerRunWorld :=
  { buildExitOk := true, runExitOk := true, runStdout := "cid123\n" }

/-- All-success infrastructure oracle. -/
def goodIW : InfraWorld :=
  { dockerVersionSpawnOk := true, dockerPsSpawnOk := true,
    useContextSpawnOk := true, clusterDumpSpawnOk := true,
    clusterDumpExitOk := true, getNamespacesSpawnOk := true,
    ingressPodsSpawnOk := true }

/-- Running-and-healthy container oracle. -/
def goodCW : ContainerWorld :=
  { runningStdout := "true", healthStdout := "healthy" }

/-- C4 counterexample: a dev-mode deploy with a fully live runtime
succeeds, yet the single record persisted on that path still carries
status `pending` and `container_id = None` — not status `Running` with a
container id as the claim states. -/
theorem scenario_a_counterexample :
    (deployCommand false "8000" false "t0" goodDW goodIW goodCW).1
      = .ok () ∧
    savedRecords
        (deployCommand false "8000" false "t0" goodDW goodIW goodCW).2
      = [mkDeployMetadata false "8000" false "t0"] ∧
    (mkDeployMetadata false "8000" false "t0")._status = "pending" ∧
    (mkDeployMetadata false "8000" false "t0").container_id = none :=
  ⟨rfl, rfl, rfl, rfl⟩

/-- C4 amended: for every dev-mode deploy with a live runtime the
pipeline succeeds, but the status field of the persisted record remains
`pending` and its `container_id` remains `None`: no step of the executed
deploy path ever updates either field (`deploy_with_docker` discards the
id of the started container, and the id-returning `deploy_to_docker` is never
called). -/
theorem dev_deploy_persists_pending (port created_at : String)
    (dw : DockerRunWorld) (iw : InfraWorld) (cw : ContainerWorld)
    (h1 : dw.buildExitOk = true) (h2 : dw.runExitOk = true)
    (h3 : iw.dockerVersionSpawnOk = true) (h4 : iw.dockerPsSpawnOk = true)
    (h5 : iw.useContextSpawnOk = true) (h6 : iw.clusterDumpSpawnOk = true)
    (h7 : iw.clusterDumpExitOk = true)
    (h8 : iw.getNamespacesSpawnOk = true) :
    (deployCommand false port false created_at dw iw cw).1 = .ok () ∧
    savedRecords (deployCommand false port false created_at dw iw cw).2
      = [mkDeployMetadata false port false created_at] ∧
    (mkDeployMetadata false port false created_at)._status = "pending" ∧
    (mkDeployMetadata false port false created_at).container_id = none := by
  refine ⟨?_, ?_, rfl, rfl⟩ <;>
    cases h9 : iw.ingressPodsSpawnOk <;>
      simp [deployCommand, deploy_with_docker, deploy_application,
        verify_infrastructure, install_nginx_ingress, save_metadata,
        savedRecords, mkDeployMetadata, h1, h2, h3, h4, h5, h6, h7, h8, h9]

theorem dev_deploy_persists_pending_witness :
    goodDW.buildExitOk = true ∧ goodDW.runExitOk = true ∧
    goodIW.dockerVersionSpawnOk = true ∧ goodIW.dockerPsSpawnOk = true ∧
    goodIW.useContextSpawnOk = true ∧ goodIW.clusterDumpSpawnOk = true ∧
    goodIW.clusterDumpExitOk = true ∧ goodIW.getNamespacesSpawnOk = true ∧
    ((deployCommand false "8000" false "t0" goodDW goodIW goodCW).1
        = .ok () ∧
     savedRecords
         (deployCommand false "8000" false "t0" goodDW goodIW goodCW).2
       = [mkDeployMetadata false "8000" false "t0"] ∧
     (mkDeployMetadata false "8000" false "t0")._status = "pending" ∧
     (mkDeployMetadata false "8000" false "t0").container_id = none) :=
  ⟨rfl, rfl, rfl, rfl, rfl, rfl, rfl, rfl,
   dev_deploy_persists_pending "8000" "t0" goodDW goodIW goodCW
     rfl rfl rfl rfl rfl rfl rfl rfl⟩

/-- All-success cluster-deployment oracle. -/
def goodKD : KubeDeployWorld :=
  { apply := { createNsSpawnOk := true, applyDeploymentSpawnOk := true,
               applyDeploymentExitOk := true, applyServiceSpawnOk := true,
               applyServiceExitOk := true },
    rolloutExitOk := true, podsStdout := "Running Running Running" }

/-- C6 counterexample: on a successful prod-mode cluster run the pipeline
trace contains no command that actually creates the namespace (the single
namespace command is a client-side dry-run) and no resource-quota apply
at all, while workload objects ARE applied; even the uncalled
`create_namespace_with_quotas` helper only dry-runs the namespace.  This
refutes the claimed namespace → quota → workload application order. -/
theorem namespace_quota_order_counterexample :
    ((deploy_to_kubernetes (mkDeployMetadata true "8000" true "t0") true
        goodKD).2.2.any Step.isRealNamespaceCreate = false) ∧
    ((deploy_to_kubernetes (mkDeployMetadata true "8000" true "t0") true
        goodKD).2.2.any Step.isQuotaApply = false) ∧
    ((deploy_to_kubernetes (mkDeployMetadata true "8000" true "t0") true
        goodKD).2.2.any Step.isWorkloadApply = true) ∧
    ((create_namespace_with_quotas "production" "prod").any
        Step.isRealNamespaceCreate = false) :=
  ⟨rfl, rfl, rfl, rfl⟩

/-- C6 amended: on a successful cluster run the kubectl invocation order
of `deploy_to_kubernetes` is exactly dry-run namespace create →
deployment apply → service apply → rollout wait → pod query: the
namespace is never actually created, no quota is applied, and there is no
network-policy, autoscaler, or ingress stage. -/
theorem cluster_apply_order (m : AppMetadata) (a : Bool)
    (w : KubeDeployWorld) (h1 : w.apply.createNsSpawnOk = true)
    (h2 : w.apply.applyDeploymentSpawnOk = true)
    (h3 : w.apply.applyServiceSpawnOk = true)
    (h4 : w.rolloutExitOk = true) :
    ((deploy_to_kubernetes m a w).2.2.filter Step.isKubectl)
      = [Step.kubectl ["create", "namespace",
           m.kubernetes_metadata.namespace_, "--dry-run=client", "-o",
           "yaml"],
         Step.kubectl ["apply", "-f", "k8s-deployment.yaml"],
         Step.kubectl ["apply", "-f", "k8s-service.yaml"],
         Step.kubectl ["rollout", "status", "deployment",
           m.kubernetes_metadata.deployment_name, "-n",
           m.kubernetes_metadata.namespace_, "--timeout=300s"],
         Step.kubectl ["get", "pods", "-l", "app=" ++ m.app_name, "-n",
           m.kubernetes_metadata.namespace_, "-o",
           "jsonpath=\x7b.items[*].status.phase\x7d"]] ∧
    ((deploy_to_kubernetes m a w).2.2.any Step.isQuotaApply = false) := by
  constructor <;>
    simp [deploy_to_kubernetes, apply_kubernetes_manifests,
      wait_for_kubernetes_deployment, update_pod_status,
      generate_kubernetes_manifests, Step.isKubectl, Step.isQuotaApply,
      h1, h2, h3, h4]

theorem cluster_apply_order_witness :
    goodKD.apply.createNsSpawnOk = true ∧
    goodKD.apply.applyDeploymentSpawnOk = true ∧
    goodKD.apply.applyServiceSpawnOk = true ∧
    goodKD.rolloutExitOk = true ∧
    (((deploy_to_kubernetes (mkDeployMetadata true "8000" true "t0") true
          goodKD).2.2.filter Step.isKubectl)
        = [Step.kubectl ["create", "namespace", "production",
             "--dry-run=client", "-o", "yaml"],
           Step.kubectl ["apply", "-f", "k8s-deployment.yaml"],
           Step.kubectl ["apply", "-f", "k8s-service.yaml"],
           Step.kubectl ["rollout", "status", "deployment",
             "app-deployment", "-n", "production", "--timeout=300s"],
           Step.kubectl ["get", "pods", "-l", "app=" ++ "app", "-n",
             "production", "-o", "jsonpath=\x7b.items[*].status.phase\x7d"]] ∧
     ((deploy_to_kubernetes (mkDeployMetadata true "8000" true "t0") true
          goodKD).2.2.any Step.isQuotaApply = false)) :=
  ⟨rfl, rfl, rfl, rfl,
   cluster_apply_order (mkDeployMetadata true "8000" true "t0") true goodKD
     rfl rfl rfl rfl⟩

lemma cluster_loop_all_fail (ok : Nat → Bool) (h0 : ok 0 = false)
    (h1 : ok 1 = false) (h2 : ok 2 = false) :
    (cluster_connect_loop ok 0 3).1.isOk = false := by
  simp [cluster_connect_loop, h0, h1, h2, Except.isOk, Except.toBool]

lemma check_conn_fails (w : KubeConnWorld)
    (h : w.dockerInfoSpawnOk = false ∨
      (w.clusterInfo 0 = false ∧ w.clusterInfo 1 = false ∧
       w.clusterInfo 2 = false)) :
    (check_kubernetes_connection w).1.isOk = false := by
  rcases h with h | ⟨h0, h1, h2⟩
  · simp [check_kubernetes_connection, h, Except.isOk, Except.toBool]
  · have hloop := cluster_loop_all_fail w.clusterInfo h0 h1 h2
    simp only [Except.isOk, Except.toBool] at hloop
    unfold check_kubernetes_connection
    by_cases d1 : w.dockerInfoSpawnOk <;>
      by_cases d2 : w.currentContextSpawnOk <;>
        by_cases d3 : w.currentContextExitOk <;>
          by_cases d4 : w.getContextsSpawnOk <;>
            by_cases d5 : stringContains w.contextsStdout "docker-desktop" <;>
              by_cases d6 : w.useContextSpawnOk <;>
                simp [d1, d2, d3, d4, d5, d6, Except.isOk,
                  Except.toBool] <;>
                  exact hloop

/-- C9: every CLI invocation — the purely local `init` subcommand and the
no-subcommand usage path included — runs `check_kubernetes_connection`
before any requested work, and whenever the Docker liveness query fails
or every cluster-reachability attempt fails, the process exits with code
1 having performed no steps beyond the queries of the connection check
itself. -/
theorem connection_gate (cmd : CliCommand) (w : MainWorld)
    (h : w.conn.dockerInfoSpawnOk = false ∨
      (w.conn.clusterInfo 0 = false ∧ w.conn.clusterInfo 1 = false ∧
       w.conn.clusterInfo 2 = false)) :
    (rustifyMain cmd w).1 = 1 ∧
    (rustifyMain cmd w).2 = (check_kubernetes_connection w.conn).2 := by
  have hfail := check_conn_fails w.conn h
  unfold rustifyMain
  rcases hc : check_kubernetes_connection w.conn with ⟨r0, t0⟩
  rw [hc] at hfail
  cases r0 with
  | error e => simp
  | ok u => simp [Except.isOk, Except.toBool] at hfail

/-- Oracle in which the cluster is unreachable on every attempt. -/
def badMain : MainWorld :=
  { conn := { dockerInfoSpawnOk := true, currentContextSpawnOk := true,
              currentContextExitOk := true, getContextsSpawnOk := true,
              contextsStdout := "", useContextSpawnOk := true,
              clusterInfo := fun _ => false },
    dw := goodDW, iw := goodIW, cw := goodCW, created_at := "t0" }

theorem connection_gate_witness :
    (badMain.conn.clusterInfo 0 = false ∧
     badMain.conn.clusterInfo 1 = false ∧
     badMain.conn.clusterInfo 2 = false) ∧
    ((rustifyMain (.init "bun") badMain).1 = 1 ∧
     (rustifyMain (.init "bun") badMain).2
       = (check_kubernetes_connection badMain.conn).2) :=
  ⟨⟨rfl, rfl, rfl⟩,
   connection_gate (.init "bun") badMain (Or.inr ⟨rfl, rfl, rfl⟩)⟩

end Rustify
